import Mathlib

/-
Verification development for the single-endpoint image-processing relay in
src/server.js.  The request pipeline (rate limiter, multer upload stage,
route handler with its try/catch, and the three RunningHub client calls) is
shallowly embedded as executable Lean definitions; theorems about the
claims of the specification follow the definitions.
-/

namespace RHServer

/-- JavaScript values that occur as JSON object field values in this model
(workflow default parameters, caller overrides, response bodies). -/
inductive JSValue where
  | undefined
  | vnull
  | vbool (b : Bool)
  | vnum (n : Int)
  | vstr (s : String)
deriving DecidableEq, Repr

/-- Bool test that the second character list is a leading segment of the
first. -/
def leadsWith : List Char → List Char → Bool
  | _, [] => true
  | [], _ :: _ => false
  | c :: cs, d :: ds => c == d && leadsWith cs ds

/-- Bool test that the second character list occurs contiguously inside the
first. -/
def hasSeg : List Char → List Char → Bool
  | [], needle => needle.isEmpty
  | c :: cs, needle => leadsWith (c :: cs) needle || hasSeg cs needle

/-- String containment, modelling both JavaScript regex test with a plain
alternative pattern and String.prototype.includes. -/
def strContains (hay needle : String) : Bool :=
  hasSeg hay.toList needle.toList

/-- Model of Node path.extname restricted to plain client file names: the
segment from the final dot onwards, or the empty string when the name has
no dot or its only leading character is the dot. -/
def extname (s : String) : String :=
  let cs := s.toList
  let afterDot := cs.reverse.takeWhile (fun c => c ≠ '.')
  if afterDot.length = cs.length then ""
  else if cs.length - afterDot.length - 1 = 0 then ""
  else String.mk (cs.drop (cs.length - afterDot.length - 1))

/-- The regex test of src/server.js line 28: the pattern jpeg, jpg or png
matches anywhere in the tested string. -/
def filetypesMatch (s : String) : Bool :=
  strContains s "jpeg" || strContains s "jpg" || strContains s "png"

/-- An uploaded file as multer sees it: client-declared name, declared
content type, and byte size. -/
structure ReqFile where
  originalname : String
  mimetype : String
  size : Nat
deriving DecidableEq, Repr

/-- ASCII lowering of a string, the effect of toLowerCase on the file
extensions considered here. -/
def lowerStr (s : String) : String :=
  String.mk (s.toList.map Char.toLower)

/-- The multer fileFilter of src/server.js lines 27-37: both the lowercased
extension of the original name and the declared content type must match the
jpeg, jpg or png pattern. -/
def fileFilterAccepts (f : ReqFile) : Bool :=
  filetypesMatch (lowerStr (extname f.originalname)) && filetypesMatch f.mimetype

/-- A JavaScript exception: thrown covers explicit throw of new Error with
a message, typeFault covers a runtime TypeError such as reading a property
of undefined.  The catch block of the handler only observes the message
string. -/
inductive JSError where
  | thrown (msg : String)
  | typeFault (msg : String)
deriving DecidableEq, Repr

/-- The message carried by a JavaScript error. -/
def JSError.message : JSError → String
  | .thrown m => m
  | .typeFault m => m

deriving instance DecidableEq for Except

/-- The engine message for reading the property fileUrl of undefined,
modelled without quote marks around the property name (the exact engine
text is not load bearing). -/
def undefinedFileUrlMsg : String :=
  "Cannot read properties of undefined (reading fileUrl)"

/-- Response body of the provider upload endpoint as read by the client:
code, msg and data.fileUrl. -/
structure UploadResp where
  code : Int
  msg : String
  fileUrl : String
deriving DecidableEq, Repr

/-- Response body of the provider task-creation endpoint as read by the
client: code, msg and data.taskId. -/
structure CreateResp where
  code : Int
  msg : String
  taskId : String
deriving DecidableEq, Repr

/-- One element of the outputs array of the provider result endpoint. -/
structure OutputItem where
  fileUrl : String
deriving DecidableEq, Repr

/-- Response body of the provider result endpoint: code, msg and the data
array of outputs. -/
structure FetchResp where
  code : Int
  msg : String
  data : List OutputItem
deriving DecidableEq, Repr

/-- The provider responses one request observes, one per outbound call. -/
structure ProviderEnv where
  upload : UploadResp
  create : CreateResp
  fetch : FetchResp
deriving DecidableEq, Repr

/-- uploadImageToRunningHub, src/server.js lines 106-121: on a non-zero
code field it throws new Error of the msg, otherwise it returns
data.fileUrl. -/
def uploadImageToRunningHub (r : UploadResp) : Except JSError String :=
  if r.code ≠ 0 then .error (.thrown r.msg) else .ok r.fileUrl

/-- createTaskOnRunningHub, src/server.js lines 124-147: on a non-zero code
field it throws new Error of the msg, otherwise it returns data.taskId. -/
def createTaskOnRunningHub (r : CreateResp) : Except JSError String :=
  if r.code ≠ 0 then .error (.thrown r.msg) else .ok r.taskId

/-- getTaskResultFromRunningHub, src/server.js lines 150-163: on a non-zero
code it throws new Error of the msg; otherwise it evaluates
data.data[0].fileUrl, which on an empty outputs array is a TypeError on
undefined, and on a nonempty array is the fileUrl of the first output. -/
def getTaskResultFromRunningHub (r : FetchResp) : Except JSError String :=
  if r.code ≠ 0 then .error (.thrown r.msg)
  else
    match r.data with
    | [] => .error (.typeFault undefinedFileUrlMsg)
    | o :: _ => .ok o.fileUrl

/-- First value bound to a key in an insertion-ordered association list
(JavaScript object field lists in this model have pairwise distinct keys,
as JSON.parse collapses duplicates). -/
def assoc {α : Type} : List (String × α) → String → Option α
  | [], _ => none
  | (k₁, v) :: t, k => if k₁ = k then some v else assoc t k

/-- A workflow descriptor as stored in comfyui_workflows.json and read by
the handler: the field function (remote workflow identifier) and the field
params (default parameters). -/
structure Workflow where
  function : String
  params : List (String × JSValue)
deriving DecidableEq, Repr

/-- The property names every plain object produced by JSON.parse inherits
from Object.prototype: its methods, the four legacy accessor-definition
methods, and the proto accessor itself.  A property access with any of
these names yields a truthy value — a function for the methods, the
Object.prototype object for the proto accessor. -/
def objectPrototypeProps : List String :=
  ["constructor", "hasOwnProperty", "isPrototypeOf", "propertyIsEnumerable",
   "toLocaleString", "toString", "valueOf", "__proto__",
   "__defineGetter__", "__defineSetter__", "__lookupGetter__", "__lookupSetter__"]

/-- Result of the property access comfyuiWorkflows[functionType] at
src/server.js line 70: an own key of the parsed JSON object yields its
descriptor, otherwise an inherited Object.prototype property name yields
that truthy inherited value, otherwise the access yields undefined. -/
inductive LookupResult where
  | own (w : Workflow)
  | proto (name : String)
  | absent
deriving DecidableEq, Repr

/-- The registry comfyuiWorkflows (parsed from comfyui_workflows.json,
whose concrete content is configuration, hence a parameter here). -/
abbrev Registry := List (String × Workflow)

/-- JavaScript property read on the parsed registry object, including the
prototype-chain fallback. -/
def lookupWorkflow (reg : Registry) (key : String) : LookupResult :=
  match assoc reg key with
  | some w => .own w
  | none => if key ∈ objectPrototypeProps then .proto key else .absent

/-- The value of workflow.params as spread at src/server.js line 76: the
descriptor fields for an own entry; for an inherited Object.prototype
value (a method or the Object.prototype object itself) the read of params
is undefined, whose spread contributes no fields. -/
def workflowParams : LookupResult → List (String × JSValue)
  | .own w => w.params
  | _ => []

/-- The value of workflow.function passed at src/server.js line 82: the
identifier string for an own entry, undefined for an inherited
Object.prototype value (which has no function property). -/
def workflowFunction : LookupResult → JSValue
  | .own w => .vstr w.function
  | _ => .undefined

/-- JavaScript object property assignment on an insertion-ordered field
list: an existing key keeps its position and takes the new value, a fresh
key is appended. -/
def setField : List (String × JSValue) → String → JSValue → List (String × JSValue)
  | [], k, v => [(k, v)]
  | (k₁, v₁) :: t, k, v =>
    if k₁ = k then (k, v) :: t else (k₁, v₁) :: setField t k v

/-- Copying all fields of src onto o in order, as the spread of src inside
an object literal does. -/
def objAssign (o src : List (String × JSValue)) : List (String × JSValue) :=
  src.foldl (fun acc kv => setField acc kv.1 kv.2) o

/-- The object literal with two spreads at src/server.js line 76: start
from the empty object, copy the default fields, then copy the override
fields. -/
def spreadMerge (a b : List (String × JSValue)) : List (String × JSValue) :=
  objAssign (objAssign [] a) b

/-- The body fields of an incoming multipart request as the handler reads
them.  functionType is a text field (absent or a string); processingParams
is modelled at the structured level the specification gives it (absent or
a mapping of override keys). -/
structure Req where
  ip : String
  file : Option ReqFile
  functionType : Option String
  processingParams : Option (List (String × JSValue))
deriving DecidableEq, Repr

/-- Falsiness of the functionType body field at src/server.js line 65: an
absent field and the empty string are falsy. -/
def strFalsy : Option String → Bool
  | none => true
  | some s => s = ""

/-- Body of an HTTP response: a JSON object, a plain text body, or the
HTML page of the Express default error handler. -/
inductive RespBody where
  | json (fields : List (String × JSValue))
  | text (s : String)
  | errorHtml (msg : String)
deriving DecidableEq, Repr

/-- An HTTP response: status code and body. -/
structure HttpResponse where
  status : Nat
  body : RespBody
deriving DecidableEq, Repr

/-- One outbound call to the provider, recorded with the arguments the
route handler passes to the corresponding client function. -/
inductive RemoteCall where
  | uploadAsset (filePath : String)
  | createTask (functionType : JSValue) (params : List (String × JSValue)) (imageUrl : String)
  | fetchResult (taskId : String)
deriving DecidableEq, Repr

/-- Outcome of the multer middleware upload.single(image): pass with the
stored path (or with no file when the form had no image part), or fail,
which Express turns over to error handling. -/
inductive MulterResult where
  | pass (storedPath : Option String)
  | fail (e : JSError)
deriving DecidableEq, Repr

/-- The stored path of an accepted upload per the diskStorage configuration
of src/server.js lines 15-22: the uploads directory, a Date.now derived
name, and the original extension. -/
def uploadPath (now : Nat) (f : ReqFile) : String :=
  "uploads/" ++ toString now ++ extname f.originalname

/-- The multer middleware configured at src/server.js lines 15-38: no file
part passes through with req.file undefined; otherwise the fileFilter runs
first and rejects with new Error of the images-only sentinel; then the
10 MiB fileSize limit rejects with the MulterError message File too large;
an accepted file is stored under uploads with a Date.now derived name plus
the original extension. -/
def multerSingleImage (now : Nat) (f? : Option ReqFile) : MulterResult :=
  match f? with
  | none => .pass none
  | some f =>
    if !fileFilterAccepts f then .fail (.thrown "Error: Images Only!")
    else if 10 * 1024 * 1024 < f.size then .fail (.thrown "File too large")
    else .pass (some (uploadPath now f))

/-- The catch block at src/server.js lines 93-102: it dispatches on the
message of the caught error; the images-only sentinel maps to 400 Invalid
file format, a message containing File too large maps to 413 File size
exceeds limit, everything else maps to 500 Internal Server Error. -/
def catchResponse (e : JSError) : HttpResponse :=
  if e.message = "Error: Images Only!" then
    ⟨400, .json [("error", .vstr "Invalid file format"), ("message", .vstr e.message)]⟩
  else if strContains e.message "File too large" then
    ⟨413, .json [("error", .vstr "File size exceeds limit"), ("message", .vstr e.message)]⟩
  else
    ⟨500, .json [("error", .vstr "Internal Server Error"), ("message", .vstr e.message)]⟩

/-- The try block of the route handler, src/server.js lines 56-92, with the
outbound calls it issues recorded in order: missing file, falsy
functionType and failed workflow lookup return early responses; otherwise
the parameters are merged and the three provider calls run sequentially,
any thrown error aborting the rest. -/
def tryBlock (reg : Registry) (storedPath : Option String) (req : Req)
    (env : ProviderEnv) : Except JSError HttpResponse × List RemoteCall :=
  match storedPath with
  | none => (.ok ⟨400, .json [("error", .vstr "No file uploaded")]⟩, [])
  | some filePath =>
    if strFalsy req.functionType then
      (.ok ⟨400, .json [("error", .vstr "Function type is required")]⟩, [])
    else
      let ft := req.functionType.getD ""
      let lr := lookupWorkflow reg ft
      if lr = .absent then
        (.ok ⟨400, .json [("error", .vstr "Invalid function type")]⟩, [])
      else
        let params := spreadMerge (workflowParams lr) (req.processingParams.getD [])
        let calls₀ := [RemoteCall.uploadAsset filePath]
        match uploadImageToRunningHub env.upload with
        | .error e => (.error e, calls₀)
        | .ok imageUrl =>
          let calls₁ := calls₀ ++ [RemoteCall.createTask (workflowFunction lr) params imageUrl]
          match createTaskOnRunningHub env.create with
          | .error e => (.error e, calls₁)
          | .ok taskId =>
            let calls₂ := calls₁ ++ [RemoteCall.fetchResult taskId]
            match getTaskResultFromRunningHub env.fetch with
            | .error e => (.error e, calls₂)
            | .ok resultUrl =>
              (.ok ⟨200, .json [("status", .vstr "completed"),
                                ("resultUrl", .vstr resultUrl),
                                ("message", .vstr "Image processed successfully")]⟩, calls₂)

/-- The route handler including its catch: a thrown error from the try
block is mapped by the catch block, an early or success response passes
through. -/
def processImageHandler (reg : Registry) (storedPath : Option String) (req : Req)
    (env : ProviderEnv) : HttpResponse × List RemoteCall :=
  match tryBlock reg storedPath req env with
  | (.ok r, cs) => (r, cs)
  | (.error e, cs) => (catchResponse e, cs)

/-- Observable outcome of one request through the route: the response, the
ordered outbound provider calls, and the stored upload path when a file
was written. -/
structure RouteResult where
  response : HttpResponse
  calls : List RemoteCall
  storedFile : Option String
deriving DecidableEq, Repr

/-- The Express default error handler as it applies here: no
error-handling middleware is registered and neither multer error carries a
status property, so finalhandler replies 500 with an HTML error page. -/
def expressDefaultErrorResponse (e : JSError) : HttpResponse :=
  ⟨500, .errorHtml e.message⟩

/-- The mounted route app.post with the multer middleware in front of the
handler: a multer failure is passed to next with the error, which skips
the handler (and therefore its try/catch) and reaches the Express default
error handler; a multer pass runs the handler. -/
def processImageRoute (reg : Registry) (now : Nat) (req : Req)
    (env : ProviderEnv) : RouteResult :=
  match multerSingleImage now req.file with
  | .fail e => ⟨expressDefaultErrorResponse e, [], none⟩
  | .pass p? =>
    let (r, cs) := processImageHandler reg p? req env
    ⟨r, cs, p?⟩

/-- Window length configured at src/server.js line 47: 120 seconds in
milliseconds. -/
def limiterWindowMs : Nat := 120 * 1000

/-- Request ceiling per client address per window, src/server.js line 48. -/
def limiterMax : Nat := 10

/-- Throttling message configured at src/server.js line 49. -/
def limiterMessage : String := "Too many requests, please try again later."

/-- Modelled from the spec: the express-rate-limit middleware itself is an
external collaborator (the spec treats it as a pluggable per-client-address
window counter); only its configuration lives in src/server.js lines
46-52.  State of the counter store: start of the current window and the
per-address hit counts inside it. -/
structure RateLimitState where
  windowStart : Nat
  hits : List (String × Nat)
deriving DecidableEq, Repr

/-- Modelled from the spec: when the window has elapsed the store resets
all counters and a new window begins. -/
def rlRefresh (st : RateLimitState) (now : Nat) : RateLimitState :=
  if st.windowStart + limiterWindowMs ≤ now then ⟨now, []⟩ else st

/-- Replace the count of one address, keeping other addresses untouched. -/
def updateHits : List (String × Nat) → String → Nat → List (String × Nat)
  | [], ip, n => [(ip, n)]
  | (k, v) :: t, ip, n =>
    if k = ip then (ip, n) :: t else (k, v) :: updateHits t ip n

/-- Modelled from the spec: one observation of the limiter counter for a
request — refresh the window, increment the count of the client address,
and report the new count, which the middleware compares against the
ceiling. -/
def rlObserve (st : RateLimitState) (ip : String) (now : Nat) :
    RateLimitState × Nat :=
  let st := rlRefresh st now
  let n := ((assoc st.hits ip).getD 0) + 1
  (⟨st.windowStart, updateHits st.hits ip n⟩, n)

/-- Express mounts app.use on a path as the path itself or any deeper
segment under it. -/
def mountMatches (mount path : String) : Bool :=
  path = mount || leadsWith path.toList (mount ++ "/").toList

/-- Observable outcome of one request through the whole app, limiter
included. -/
structure AppResult where
  response : HttpResponse
  calls : List RemoteCall
  storedFile : Option String
  rlState : RateLimitState
deriving DecidableEq, Repr

/-- The application surface of src/server.js: the limiter is mounted only
on the processing path (line 52), the single POST route sits at that exact
path, and every other path falls through to the Express 404 reply without
touching the limiter.  A request over the ceiling is answered with 429 and
the throttling message before multer, the handler or any outbound call
runs. -/
def appHandle (reg : Registry) (st : RateLimitState) (path : String)
    (now : Nat) (req : Req) (env : ProviderEnv) : AppResult :=
  if mountMatches "/api/process-image" path then
    let (st', n) := rlObserve st req.ip now
    if limiterMax < n then ⟨⟨429, .text limiterMessage⟩, [], none, st'⟩
    else if path = "/api/process-image" then
      let r := processImageRoute reg now req env
      ⟨r.response, r.calls, r.storedFile, st'⟩
    else ⟨⟨404, .text ("Cannot POST " ++ path)⟩, [], none, st'⟩
  else ⟨⟨404, .text ("Cannot POST " ++ path)⟩, [], none, st⟩

/-- Run a sequence of timed requests to the processing endpoint, threading
the limiter state, and collect the per-request outcomes. -/
def runApp (reg : Registry) (env : ProviderEnv) :
    RateLimitState → List (Nat × Req) → List AppResult
  | _, [] => []
  | st, (t, r) :: rest =>
    let a := appHandle reg st "/api/process-image" t r env
    a :: runApp reg env a.rlState rest

/-- Number of outcomes of a run that were not throttled. -/
def passedCount (rs : List AppResult) : Nat :=
  (rs.filter (fun a => a.response.status ≠ 429)).length

/-- Last value assigned to a key by a field list processed in order, the
value the repeated-assignment semantics of spread leaves in place. -/
def lookupLastKey : List (String × JSValue) → String → Option JSValue
  | [], _ => none
  | (k₁, v₁) :: t, k =>
    match lookupLastKey t k with
    | some v => some v
    | none => if k₁ = k then some v₁ else none

theorem assoc_setField_self (o : List (String × JSValue)) (k : String) (v : JSValue) :
    assoc (setField o k v) k = some v := by
  induction o with
  | nil => simp [setField, assoc]
  | cons h t ih =>
    obtain ⟨k₁, v₁⟩ := h
    by_cases hk : k₁ = k
    · simp [setField, hk, assoc]
    · simp [setField, hk, assoc, ih]

theorem assoc_setField_ne (o : List (String × JSValue)) (k k' : String) (v : JSValue)
    (h : k ≠ k') : assoc (setField o k v) k' = assoc o k' := by
  induction o with
  | nil => simp [setField, assoc, h]
  | cons p t ih =>
    obtain ⟨k₁, v₁⟩ := p
    by_cases hk : k₁ = k
    · subst hk; simp [setField, assoc, h]
    · simp [setField, hk, assoc, ih]

theorem objAssign_cons (o : List (String × JSValue)) (p : String × JSValue)
    (t : List (String × JSValue)) :
    objAssign o (p :: t) = objAssign (setField o p.1 p.2) t := rfl

theorem assoc_objAssign (src : List (String × JSValue)) :
    ∀ (o : List (String × JSValue)) (k : String),
    assoc (objAssign o src) k =
      match lookupLastKey src k with
      | some v => some v
      | none => assoc o k := by
  induction src with
  | nil => intro o k; simp [objAssign, lookupLastKey]
  | cons p t ih =>
    intro o k
    obtain ⟨k₁, v₁⟩ := p
    rw [objAssign_cons, ih]
    cases hl : lookupLastKey t k with
    | some v => simp [lookupLastKey, hl]
    | none =>
      simp only [lookupLastKey, hl]
      by_cases hk : k₁ = k
      · subst hk; simp [assoc_setField_self]
      · simp [hk, assoc_setField_ne _ _ _ _ hk]

theorem assoc_eq_none_of_not_mem {α : Type} (l : List (String × α)) (k : String)
    (h : k ∉ l.map Prod.fst) : assoc l k = none := by
  induction l with
  | nil => rfl
  | cons p t ih =>
    obtain ⟨k₁, v₁⟩ := p
    simp only [List.map_cons, List.mem_cons] at h
    push_neg at h
    have hne : ¬k₁ = k := fun hq => h.1 hq.symm
    simp [assoc, hne, ih h.2]

theorem lookupLastKey_eq_assoc (l : List (String × JSValue)) (k : String)
    (h : (l.map Prod.fst).Nodup) : lookupLastKey l k = assoc l k := by
  induction l with
  | nil => rfl
  | cons p t ih =>
    obtain ⟨k₁, v₁⟩ := p
    simp only [List.map_cons, List.nodup_cons] at h
    by_cases hk : k₁ = k
    · have ht : assoc t k = none := assoc_eq_none_of_not_mem t k (hk ▸ h.1)
      have hl : lookupLastKey t k = none := by rw [ih h.2, ht]
      simp [lookupLastKey, assoc, hk, hl]
    · simp only [lookupLastKey, assoc, hk, if_false, ih h.2]
      cases assoc t k <;> simp

/-- Key-by-key description of the spread merge of line 76: an override key
takes the override value, any other key keeps the default value. -/
theorem assoc_spreadMerge (a b : List (String × JSValue)) (k : String)
    (ha : (a.map Prod.fst).Nodup) (hb : (b.map Prod.fst).Nodup) :
    assoc (spreadMerge a b) k =
      match assoc b k with
      | some v => some v
      | none => assoc a k := by
  unfold spreadMerge
  rw [assoc_objAssign, assoc_objAssign, lookupLastKey_eq_assoc b k hb,
    lookupLastKey_eq_assoc a k ha]
  cases assoc b k <;> cases assoc a k <;> simp [assoc]

theorem setField_eq_append (o : List (String × JSValue)) (k : String) (v : JSValue)
    (h : k ∉ o.map Prod.fst) : setField o k v = o ++ [(k, v)] := by
  induction o with
  | nil => rfl
  | cons p t ih =>
    obtain ⟨k₁, v₁⟩ := p
    simp only [List.map_cons, List.mem_cons] at h
    push_neg at h
    have hne : ¬k₁ = k := fun hq => h.1 hq.symm
    simp [setField, hne, ih h.2]

theorem objAssign_eq_append (src : List (String × JSValue)) :
    ∀ (o : List (String × JSValue)), (src.map Prod.fst).Nodup →
    (∀ k ∈ src.map Prod.fst, k ∉ o.map Prod.fst) →
    objAssign o src = o ++ src := by
  induction src with
  | nil => intro o _ _; simp [objAssign]
  | cons p t ih =>
    intro o hnd hdis
    obtain ⟨k₁, v₁⟩ := p
    simp only [List.map_cons, List.nodup_cons] at hnd
    rw [objAssign_cons]
    have hk₁ : k₁ ∉ o.map Prod.fst := hdis k₁ (by simp)
    rw [setField_eq_append o k₁ v₁ hk₁]
    rw [ih (o ++ [(k₁, v₁)]) hnd.2 ?_]
    · simp
    · intro k hk
      simp only [List.map_append, List.mem_append, List.map_cons, List.map_nil,
        List.mem_singleton]
      push_neg
      refine ⟨hdis k (by simp [hk]), ?_⟩
      intro hq
      exact hnd.1 (hq ▸ hk)

/-- Spreading no overrides reproduces the default field list exactly. -/
theorem spreadMerge_nil (a : List (String × JSValue))
    (h : (a.map Prod.fst).Nodup) : spreadMerge a [] = a := by
  unfold spreadMerge
  have : objAssign [] a = [] ++ a := objAssign_eq_append a [] h (by simp)
  simp only [objAssign, List.foldl_nil]
  simpa using this

theorem multer_accepted (now : Nat) (f : ReqFile)
    (hacc : fileFilterAccepts f = true) (hsize : f.size ≤ 10 * 1024 * 1024) :
    multerSingleImage now (some f) = .pass (some (uploadPath now f)) := by
  simp only [multerSingleImage, hacc, Bool.not_true, Bool.false_eq_true, if_false]
  rw [if_neg (by omega)]

theorem route_accepted (reg : Registry) (now : Nat) (req : Req) (f : ReqFile)
    (env : ProviderEnv) (hf : req.file = some f)
    (hacc : fileFilterAccepts f = true) (hsize : f.size ≤ 10 * 1024 * 1024) :
    processImageRoute reg now req env =
      ⟨(processImageHandler reg (some (uploadPath now f)) req env).1,
       (processImageHandler reg (some (uploadPath now f)) req env).2,
       some (uploadPath now f)⟩ := by
  simp only [processImageRoute, hf, multer_accepted now f hacc hsize]

theorem strFalsy_some_ne (s : String) (hs : s ≠ "") : strFalsy (some s) = false := by
  simp [strFalsy, hs]

theorem lookupWorkflow_own (reg : Registry) (s : String) (w : Workflow)
    (hw : assoc reg s = some w) : lookupWorkflow reg s = .own w := by
  simp [lookupWorkflow, hw]

/-- The try block for a stored file, a truthy functionType and a resolved
workflow, expressed as a single match over the three provider responses. -/
theorem tryBlock_resolved (reg : Registry) (p : String) (req : Req)
    (env : ProviderEnv) (s : String) (lr : LookupResult)
    (hft : req.functionType = some s) (hs : s ≠ "")
    (hlr : lookupWorkflow reg s = lr) (habs : lr ≠ .absent) :
    tryBlock reg (some p) req env =
      match uploadImageToRunningHub env.upload with
      | .error e => (.error e, [RemoteCall.uploadAsset p])
      | .ok imageUrl =>
        match createTaskOnRunningHub env.create with
        | .error e =>
          (.error e,
           [RemoteCall.uploadAsset p,
            RemoteCall.createTask (workflowFunction lr)
              (spreadMerge (workflowParams lr) (req.processingParams.getD [])) imageUrl])
        | .ok taskId =>
          match getTaskResultFromRunningHub env.fetch with
          | .error e =>
            (.error e,
             [RemoteCall.uploadAsset p,
              RemoteCall.createTask (workflowFunction lr)
                (spreadMerge (workflowParams lr) (req.processingParams.getD [])) imageUrl,
              RemoteCall.fetchResult taskId])
          | .ok resultUrl =>
            (.ok ⟨200, .json [("status", .vstr "completed"),
                              ("resultUrl", .vstr resultUrl),
                              ("message", .vstr "Image processed successfully")]⟩,
             [RemoteCall.uploadAsset p,
              RemoteCall.createTask (workflowFunction lr)
                (spreadMerge (workflowParams lr) (req.processingParams.getD [])) imageUrl,
              RemoteCall.fetchResult taskId]) := by
  simp only [tryBlock, hft, strFalsy_some_ne s hs, Bool.false_eq_true, if_false,
    Option.getD_some, hlr]
  rw [if_neg habs]
  cases uploadImageToRunningHub env.upload with
  | error e => rfl
  | ok imageUrl =>
    cases createTaskOnRunningHub env.create with
    | error e => simp
    | ok taskId =>
      cases getTaskResultFromRunningHub env.fetch with
      | error e => simp
      | ok resultUrl => simp

/-- Sample workflow descriptor with the default parameters of the worked
example in the spec. -/
def sampleWorkflow : Workflow := ⟨"wf-123", [("a", .vnum 1), ("b", .vnum 2)]⟩

/-- Sample registry with one configured function type. -/
def sampleReg : Registry := [("faceSwap", sampleWorkflow)]

/-- Sample valid upload. -/
def samplePng : ReqFile := ⟨"photo.png", "image/png", 1000⟩

/-- Sample provider environment in which all three calls succeed. -/
def sampleEnvOk : ProviderEnv :=
  ⟨⟨0, "ok", "http://img"⟩, ⟨0, "ok", "task-1"⟩, ⟨0, "ok", [⟨"http://result"⟩]⟩⟩

/-- Sample caller overrides of the worked example in the spec. -/
def sampleOverrides : List (String × JSValue) := [("b", .vnum 9), ("c", .vnum 3)]

/-- Sample well-formed request for the configured function type. -/
def sampleReq : Req := ⟨"1.2.3.4", some samplePng, some "faceSwap", some sampleOverrides⟩

/-- C1: for every accepted request with a known functionType, the parameter
set passed to the create-task call of the provider client equals the
default parameters of the resolved workflow descriptor overridden
key-by-key by the caller-supplied processingParams — a key present only in
the defaults keeps its default value, a key present in the overrides takes
the caller value, and keys present only in the overrides are added. -/
theorem c1_merged_params
    (reg : Registry) (now : Nat) (req : Req) (f : ReqFile) (s : String)
    (w : Workflow) (ov : List (String × JSValue)) (env : ProviderEnv)
    (hf : req.file = some f) (hacc : fileFilterAccepts f = true)
    (hsize : f.size ≤ 10 * 1024 * 1024)
    (hft : req.functionType = some s) (hs : s ≠ "")
    (hw : assoc reg s = some w)
    (hpp : req.processingParams = some ov)
    (hup : env.upload.code = 0)
    (hnd : (w.params.map Prod.fst).Nodup)
    (hno : (ov.map Prod.fst).Nodup) :
    (RemoteCall.createTask (.vstr w.function) (spreadMerge w.params ov) env.upload.fileUrl
        ∈ (processImageRoute reg now req env).calls) ∧
    (∀ fn ps url, RemoteCall.createTask fn ps url ∈ (processImageRoute reg now req env).calls →
        ps = spreadMerge w.params ov) ∧
    (∀ k v, assoc ov k = some v → assoc (spreadMerge w.params ov) k = some v) ∧
    (∀ k, assoc ov k = none → assoc (spreadMerge w.params ov) k = assoc w.params k) := by
  have hlr := lookupWorkflow_own reg s w hw
  have hu : uploadImageToRunningHub env.upload = .ok env.upload.fileUrl := by
    simp [uploadImageToRunningHub, hup]
  rw [route_accepted reg now req f env hf hacc hsize]
  simp only [processImageHandler,
    tryBlock_resolved reg (uploadPath now f) req env s (.own w) hft hs hlr (by simp),
    hpp, Option.getD_some, hu, workflowFunction, workflowParams]
  refine ⟨?_, ?_, ?_, ?_⟩
  · cases hcr : createTaskOnRunningHub env.create with
    | error e => simp
    | ok taskId =>
      cases hfr : getTaskResultFromRunningHub env.fetch with
      | error e => simp
      | ok resultUrl => simp
  · intro fn ps url hmem
    cases hcr : createTaskOnRunningHub env.create with
    | error e =>
      rw [hcr] at hmem
      simp at hmem
      exact hmem.2.1
    | ok taskId =>
      rw [hcr] at hmem
      cases hfr : getTaskResultFromRunningHub env.fetch with
      | error e =>
        rw [hfr] at hmem
        simp at hmem
        exact hmem.2.1
      | ok resultUrl =>
        rw [hfr] at hmem
        simp at hmem
        exact hmem.2.1
  · intro k v hkv
    rw [assoc_spreadMerge w.params ov k hnd hno, hkv]
  · intro k hkv
    rw [assoc_spreadMerge w.params ov k hnd hno, hkv]

/-- Witness for C1 at the worked example of the spec: defaults a 1, b 2
with overrides b 9, c 3 yield a 1, b 9, c 3, and that parameter set is the
one carried by the create-task call of the trace. -/
theorem c1_merged_params_witness :
    spreadMerge sampleWorkflow.params sampleOverrides
      = [("a", JSValue.vnum 1), ("b", JSValue.vnum 9), ("c", JSValue.vnum 3)] ∧
    RemoteCall.createTask (.vstr "wf-123")
        (spreadMerge sampleWorkflow.params sampleOverrides) "http://img"
      ∈ (processImageRoute sampleReg 77 sampleReq sampleEnvOk).calls := by
  constructor
  · decide
  · exact (c1_merged_params sampleReg 77 sampleReq samplePng "faceSwap"
      sampleWorkflow sampleOverrides sampleEnvOk rfl (by decide) (by decide) rfl
      (by decide) (by decide) rfl rfl (by decide) (by decide)).1

/-- C10: for every accepted request in which the multipart form supplies no
processingParams field, so that the spread of the overrides contributes
nothing, the parameter set passed to the create-task call of the provider
client equals the default parameters of the resolved workflow descriptor
exactly, with no keys added, removed or changed. -/
theorem c10_defaults_unchanged
    (reg : Registry) (now : Nat) (req : Req) (f : ReqFile) (s : String)
    (w : Workflow) (env : ProviderEnv)
    (hf : req.file = some f) (hacc : fileFilterAccepts f = true)
    (hsize : f.size ≤ 10 * 1024 * 1024)
    (hft : req.functionType = some s) (hs : s ≠ "")
    (hw : assoc reg s = some w)
    (hpp : req.processingParams = none)
    (hup : env.upload.code = 0)
    (hnd : (w.params.map Prod.fst).Nodup) :
    (RemoteCall.createTask (.vstr w.function) w.params env.upload.fileUrl
        ∈ (processImageRoute reg now req env).calls) ∧
    (∀ fn ps url, RemoteCall.createTask fn ps url ∈ (processImageRoute reg now req env).calls →
        ps = w.params) := by
  have hlr := lookupWorkflow_own reg s w hw
  have hu : uploadImageToRunningHub env.upload = .ok env.upload.fileUrl := by
    simp [uploadImageToRunningHub, hup]
  have hmerge : spreadMerge w.params [] = w.params := spreadMerge_nil w.params hnd
  rw [route_accepted reg now req f env hf hacc hsize]
  simp only [processImageHandler,
    tryBlock_resolved reg (uploadPath now f) req env s (.own w) hft hs hlr (by simp),
    hpp, Option.getD_none, hu, workflowFunction, workflowParams, hmerge]
  constructor
  · cases hcr : createTaskOnRunningHub env.create with
    | error e => simp
    | ok taskId =>
      cases hfr : getTaskResultFromRunningHub env.fetch with
      | error e => simp
      | ok resultUrl => simp
  · intro fn ps url hmem
    cases hcr : createTaskOnRunningHub env.create with
    | error e =>
      rw [hcr] at hmem
      simp at hmem
      exact hmem.2.1
    | ok taskId =>
      rw [hcr] at hmem
      cases hfr : getTaskResultFromRunningHub env.fetch with
      | error e =>
        rw [hfr] at hmem
        simp at hmem
        exact hmem.2.1
      | ok resultUrl =>
        rw [hfr] at hmem
        simp at hmem
        exact hmem.2.1

/-- Sample request with no processingParams field. -/
def sampleReqNoParams : Req := ⟨"1.2.3.4", some samplePng, some "faceSwap", none⟩

/-- Witness for C10: with no processingParams the create-task call carries
the defaults a 1, b 2 untouched. -/
theorem c10_defaults_unchanged_witness :
    RemoteCall.createTask (.vstr "wf-123") [("a", JSValue.vnum 1), ("b", JSValue.vnum 2)]
        "http://img"
      ∈ (processImageRoute sampleReg 77 sampleReqNoParams sampleEnvOk).calls := by
  have h := c10_defaults_unchanged sampleReg 77 sampleReqNoParams samplePng "faceSwap"
    sampleWorkflow sampleEnvOk rfl (by decide) (by decide) rfl (by decide) (by decide)
    rfl rfl (by decide)
  exact h.1

/-- C7: every request that passes validation, workflow lookup and all three
provider calls is answered with HTTP 200 and a JSON body whose status field
is completed, whose resultUrl field is the file URL of the first output of
the fetch-result response, and which contains a message field. -/
theorem c7_success_response
    (reg : Registry) (now : Nat) (req : Req) (f : ReqFile) (s : String)
    (lr : LookupResult) (env : ProviderEnv) (o : OutputItem) (rest : List OutputItem)
    (hf : req.file = some f) (hacc : fileFilterAccepts f = true)
    (hsize : f.size ≤ 10 * 1024 * 1024)
    (hft : req.functionType = some s) (hs : s ≠ "")
    (hlr : lookupWorkflow reg s = lr) (habs : lr ≠ .absent)
    (hup : env.upload.code = 0) (hcr : env.create.code = 0)
    (hfc : env.fetch.code = 0) (hdata : env.fetch.data = o :: rest) :
    (processImageRoute reg now req env).response =
      ⟨200, .json [("status", .vstr "completed"),
                   ("resultUrl", .vstr o.fileUrl),
                   ("message", .vstr "Image processed successfully")]⟩ := by
  have hu : uploadImageToRunningHub env.upload = .ok env.upload.fileUrl := by
    simp [uploadImageToRunningHub, hup]
  have hc : createTaskOnRunningHub env.create = .ok env.create.taskId := by
    simp [createTaskOnRunningHub, hcr]
  have hfe : getTaskResultFromRunningHub env.fetch = .ok o.fileUrl := by
    simp [getTaskResultFromRunningHub, hfc, hdata]
  rw [route_accepted reg now req f env hf hacc hsize]
  simp only [processImageHandler,
    tryBlock_resolved reg (uploadPath now f) req env s lr hft hs hlr habs, hu, hc, hfe]

/-- Witness for C7 at the sample request and an all-success provider
environment. -/
theorem c7_success_response_witness :
    (processImageRoute sampleReg 77 sampleReq sampleEnvOk).response =
      ⟨200, .json [("status", .vstr "completed"),
                   ("resultUrl", .vstr "http://result"),
                   ("message", .vstr "Image processed successfully")]⟩ := by
  exact c7_success_response sampleReg 77 sampleReq samplePng "faceSwap"
    (.own sampleWorkflow) sampleEnvOk ⟨"http://result"⟩ [] rfl (by decide) (by decide)
    rfl (by decide) (by decide) (by simp) rfl rfl rfl rfl

/-- C2 amended: whenever the create-task response of the provider carries a
non-zero code, the fetch-result call is never issued, and the endpoint
replies HTTP 500 carrying the provider msg as the message field — except
when that msg collides with one of the two sentinel message checks of the
catch block (the images-only sentinel is mapped to 400, and a msg
containing the text File too large is mapped to 413). -/
theorem c2_create_failure_propagation
    (reg : Registry) (now : Nat) (req : Req) (f : ReqFile) (s : String)
    (lr : LookupResult) (env : ProviderEnv)
    (hf : req.file = some f) (hacc : fileFilterAccepts f = true)
    (hsize : f.size ≤ 10 * 1024 * 1024)
    (hft : req.functionType = some s) (hs : s ≠ "")
    (hlr : lookupWorkflow reg s = lr) (habs : lr ≠ .absent)
    (hup : env.upload.code = 0) (hcr : env.create.code ≠ 0) :
    (∀ tid, RemoteCall.fetchResult tid ∉ (processImageRoute reg now req env).calls) ∧
    (env.create.msg ≠ "Error: Images Only!" →
     strContains env.create.msg "File too large" = false →
     (processImageRoute reg now req env).response =
       ⟨500, .json [("error", .vstr "Internal Server Error"),
                    ("message", .vstr env.create.msg)]⟩) := by
  have hu : uploadImageToRunningHub env.upload = .ok env.upload.fileUrl := by
    simp [uploadImageToRunningHub, hup]
  have hc : createTaskOnRunningHub env.create = .error (.thrown env.create.msg) := by
    simp [createTaskOnRunningHub, hcr]
  rw [route_accepted reg now req f env hf hacc hsize]
  simp only [processImageHandler,
    tryBlock_resolved reg (uploadPath now f) req env s lr hft hs hlr habs, hu, hc]
  constructor
  · intro tid
    simp
  · intro h1 h2
    simp [catchResponse, JSError.message, h1, h2]

/-- Provider environment whose create-task call fails with the msg of the
worked example in the spec. -/
def envCreateBad : ProviderEnv :=
  ⟨⟨0, "ok", "http://img"⟩, ⟨1, "bad workflow", ""⟩, ⟨0, "ok", [⟨"r"⟩]⟩⟩

/-- Witness for C2 amended at the example of the spec: code 1 with msg bad
workflow yields HTTP 500 with message bad workflow and no fetch-result
call. -/
theorem c2_create_failure_witness :
    (RemoteCall.fetchResult "task-1" ∉
      (processImageRoute sampleReg 77 sampleReq envCreateBad).calls) ∧
    (processImageRoute sampleReg 77 sampleReq envCreateBad).response =
      ⟨500, .json [("error", .vstr "Internal Server Error"),
                   ("message", .vstr "bad workflow")]⟩ := by
  have h := c2_create_failure_propagation sampleReg 77 sampleReq samplePng "faceSwap"
    (.own sampleWorkflow) envCreateBad rfl (by decide) (by decide) rfl (by decide)
    (by decide) (by simp) rfl (by decide)
  exact ⟨h.1 "task-1", h.2 (by decide) (by decide)⟩

/-- Provider environment whose create-task msg collides with the sentinel
of the size-limit branch of the catch block. -/
def envCreateCollide : ProviderEnv :=
  ⟨⟨0, "ok", "http://img"⟩, ⟨1, "File too large", ""⟩, ⟨0, "ok", [⟨"r"⟩]⟩⟩

/-- C2 counterexample: a create-task failure whose msg is File too large is
answered 413, not 500 with that msg, because the catch block routes on the
message text; so the claim as stated fails for this non-zero-code
response. -/
theorem c2_counterexample :
    envCreateCollide.create.code ≠ 0 ∧
    (processImageRoute sampleReg 77 sampleReq envCreateCollide).response.status = 413 ∧
    (processImageRoute sampleReg 77 sampleReq envCreateCollide).response ≠
      ⟨500, .json [("error", .vstr "Internal Server Error"),
                   ("message", .vstr "File too large")]⟩ := by decide

/-- C3 amended: when the fetch-result response has code 0 and an empty
outputs array, the result read fails with a runtime type fault from
reading a property of undefined — not with the explicit thrown error that
carries a provider msg — and the catch-all of the endpoint still converts
it into a defined HTTP 500 JSON error response, so no unhandled fault
escapes the handler. -/
theorem c3_empty_outputs_defined_error
    (reg : Registry) (now : Nat) (req : Req) (f : ReqFile) (s : String)
    (lr : LookupResult) (env : ProviderEnv)
    (hf : req.file = some f) (hacc : fileFilterAccepts f = true)
    (hsize : f.size ≤ 10 * 1024 * 1024)
    (hft : req.functionType = some s) (hs : s ≠ "")
    (hlr : lookupWorkflow reg s = lr) (habs : lr ≠ .absent)
    (hup : env.upload.code = 0) (hcr : env.create.code = 0)
    (hfc : env.fetch.code = 0) (hdata : env.fetch.data = []) :
    getTaskResultFromRunningHub env.fetch = .error (.typeFault undefinedFileUrlMsg) ∧
    (processImageRoute reg now req env).response =
      ⟨500, .json [("error", .vstr "Internal Server Error"),
                   ("message", .vstr undefinedFileUrlMsg)]⟩ := by
  have hu : uploadImageToRunningHub env.upload = .ok env.upload.fileUrl := by
    simp [uploadImageToRunningHub, hup]
  have hc : createTaskOnRunningHub env.create = .ok env.create.taskId := by
    simp [createTaskOnRunningHub, hcr]
  have hfe : getTaskResultFromRunningHub env.fetch = .error (.typeFault undefinedFileUrlMsg) := by
    simp [getTaskResultFromRunningHub, hfc, hdata]
  have hnc : strContains undefinedFileUrlMsg "File too large" = false := by decide
  have hns : undefinedFileUrlMsg ≠ "Error: Images Only!" := by decide
  refine ⟨hfe, ?_⟩
  rw [route_accepted reg now req f env hf hacc hsize]
  simp only [processImageHandler,
    tryBlock_resolved reg (uploadPath now f) req env s lr hft hs hlr habs, hu, hc, hfe]
  simp [catchResponse, JSError.message, hnc, hns]

/-- Provider environment whose fetch-result response has code 0 but an
empty outputs array. -/
def envFetchEmpty : ProviderEnv :=
  ⟨⟨0, "ok", "http://img"⟩, ⟨0, "ok", "task-1"⟩, ⟨0, "success", []⟩⟩

/-- C3 counterexample: on code 0 with empty outputs the failure of the
result read is a runtime type fault, not the thrown form that carries the
provider msg, refuting the part of the claim that says fetchResult fails
with a RemoteResultError there. -/
theorem c3_counterexample :
    getTaskResultFromRunningHub envFetchEmpty.fetch
      = .error (.typeFault undefinedFileUrlMsg) ∧
    getTaskResultFromRunningHub envFetchEmpty.fetch
      ≠ .error (.thrown envFetchEmpty.fetch.msg) := by decide

/-- Witness for C3 amended at the concrete empty-outputs environment. -/
theorem c3_empty_outputs_witness :
    (processImageRoute sampleReg 77 sampleReq envFetchEmpty).response =
      ⟨500, .json [("error", .vstr "Internal Server Error"),
                   ("message", .vstr undefinedFileUrlMsg)]⟩ := by
  exact (c3_empty_outputs_defined_error sampleReg 77 sampleReq samplePng "faceSwap"
    (.own sampleWorkflow) envFetchEmpty rfl (by decide) (by decide) rfl (by decide)
    (by decide) (by simp) rfl rfl rfl rfl).2

/-- C6 amended: a request whose functionType is neither a key of the
workflow registry nor the name of an inherited Object.prototype property is
answered HTTP 400 with error Invalid function type and no outbound provider
call is issued for it. -/
theorem c6_unknown_function_rejected
    (reg : Registry) (now : Nat) (req : Req) (f : ReqFile) (s : String)
    (env : ProviderEnv)
    (hf : req.file = some f) (hacc : fileFilterAccepts f = true)
    (hsize : f.size ≤ 10 * 1024 * 1024)
    (hft : req.functionType = some s) (hs : s ≠ "")
    (hw : assoc reg s = none) (hp : s ∉ objectPrototypeProps) :
    (processImageRoute reg now req env).response =
      ⟨400, .json [("error", .vstr "Invalid function type")]⟩ ∧
    (processImageRoute reg now req env).calls = [] := by
  have hlr : lookupWorkflow reg s = .absent := by
    simp [lookupWorkflow, hw, hp]
  rw [route_accepted reg now req f env hf hacc hsize]
  simp [processImageHandler, tryBlock, hft, strFalsy_some_ne s hs, hlr]

/-- Request naming the inherited Object.prototype method toString as its
functionType. -/
def reqToString : Req := ⟨"1.2.3.4", some samplePng, some "toString", none⟩

/-- Request naming the inherited proto accessor as its functionType. -/
def reqProto : Req := ⟨"1.2.3.4", some samplePng, some "__proto__", none⟩

/-- C6 counterexample: neither toString nor the proto accessor name is a
key of the sample registry, yet neither request is answered with the
invalid-function-type rejection and outbound calls are issued for both,
because the inherited Object.prototype property makes the workflow lookup
truthy. -/
theorem c6_counterexample :
    assoc sampleReg "toString" = none ∧
    (processImageRoute sampleReg 77 reqToString sampleEnvOk).response ≠
      ⟨400, .json [("error", .vstr "Invalid function type")]⟩ ∧
    (processImageRoute sampleReg 77 reqToString sampleEnvOk).calls ≠ [] ∧
    assoc sampleReg "__proto__" = none ∧
    (processImageRoute sampleReg 77 reqProto sampleEnvOk).response ≠
      ⟨400, .json [("error", .vstr "Invalid function type")]⟩ ∧
    (processImageRoute sampleReg 77 reqProto sampleEnvOk).calls ≠ [] := by decide

/-- Witness for C6 amended at a functionType absent from both the sample
registry and the Object.prototype names. -/
theorem c6_unknown_function_witness :
    (processImageRoute sampleReg 77 ⟨"1.2.3.4", some samplePng, some "nonexistent", none⟩
        sampleEnvOk).response =
      ⟨400, .json [("error", .vstr "Invalid function type")]⟩ ∧
    (processImageRoute sampleReg 77 ⟨"1.2.3.4", some samplePng, some "nonexistent", none⟩
        sampleEnvOk).calls = [] := by
  exact c6_unknown_function_rejected sampleReg 77
    ⟨"1.2.3.4", some samplePng, some "nonexistent", none⟩ samplePng "nonexistent"
    sampleEnvOk rfl (by decide) (by decide) rfl (by decide) (by decide) (by decide)

theorem catchResponse_ne_invalidFn (e : JSError) :
    catchResponse e ≠ ⟨400, .json [("error", .vstr "Invalid function type")]⟩ := by
  unfold catchResponse
  split
  · simp
  · split
    · simp
    · simp

/-- C9: the invalid-function-type rejection fires exactly when the property
access on the parsed registry object yields a falsy value, so a
functionType that is not a configured key but names an inherited
Object.prototype property, such as toString, resolves to the inherited
(truthy) function: the request is not rejected as an invalid function type
and proceeds into the outbound calls with that inherited value as the
workflow descriptor. -/
theorem c9_proto_name_not_rejected
    (reg : Registry) (now : Nat) (req : Req) (f : ReqFile) (env : ProviderEnv)
    (hf : req.file = some f) (hacc : fileFilterAccepts f = true)
    (hsize : f.size ≤ 10 * 1024 * 1024)
    (hft : req.functionType = some "toString")
    (hw : assoc reg "toString" = none) :
    lookupWorkflow reg "toString" = .proto "toString" ∧
    (processImageRoute reg now req env).response ≠
      ⟨400, .json [("error", .vstr "Invalid function type")]⟩ ∧
    RemoteCall.uploadAsset (uploadPath now f) ∈ (processImageRoute reg now req env).calls := by
  have hlr : lookupWorkflow reg "toString" = .proto "toString" := by
    simp [lookupWorkflow, hw, objectPrototypeProps]
  refine ⟨hlr, ?_⟩
  rw [route_accepted reg now req f env hf hacc hsize]
  simp only [processImageHandler,
    tryBlock_resolved reg (uploadPath now f) req env "toString" (.proto "toString")
      hft (by decide) hlr (by simp)]
  cases hu : uploadImageToRunningHub env.upload with
  | error e => exact ⟨catchResponse_ne_invalidFn e, by simp⟩
  | ok imageUrl =>
    cases hc : createTaskOnRunningHub env.create with
    | error e => exact ⟨catchResponse_ne_invalidFn e, by simp⟩
    | ok taskId =>
      cases hfr : getTaskResultFromRunningHub env.fetch with
      | error e => exact ⟨catchResponse_ne_invalidFn e, by simp⟩
      | ok resultUrl => exact ⟨by simp, by simp⟩

/-- Witness for C9 at the sample registry, which has no toString key. -/
theorem c9_proto_name_witness :
    lookupWorkflow sampleReg "toString" = .proto "toString" ∧
    RemoteCall.uploadAsset "uploads/77.png" ∈
      (processImageRoute sampleReg 77 reqToString sampleEnvOk).calls := by
  have h := c9_proto_name_not_rejected sampleReg 77 reqToString samplePng sampleEnvOk
    rfl (by decide) (by decide) rfl (by decide)
  exact ⟨h.1, h.2.2⟩

/-- Upload of eleven mebibytes with a valid image name and content type. -/
def oversizedReq : Req :=
  ⟨"1.2.3.4", some ⟨"big.png", "image/png", 11 * 1024 * 1024⟩, some "faceSwap", none⟩

/-- C4: evaluation of the code at the failing input of the claim — an
upload over the 10 MiB limit makes the multer middleware pass its error to
next, which skips the route handler and its catch, so the Express default
error handler answers HTTP 500 with an error page; the 413 File size
exceeds limit response of the claim is never produced.  No outbound call
is made and no file is stored. -/
theorem c4_oversized_evaluates_to_500 :
    processImageRoute sampleReg 77 oversizedReq sampleEnvOk =
      ⟨⟨500, .errorHtml "File too large"⟩, [], none⟩ ∧
    (processImageRoute sampleReg 77 oversizedReq sampleEnvOk).response.status ≠ 413 := by
  decide

/-- Upload with a gif name and content type. -/
def gifReq : Req :=
  ⟨"1.2.3.4", some ⟨"cat.gif", "image/gif", 10⟩, some "faceSwap", none⟩

/-- C5: evaluation of the code at the failing input of the claim — a gif
upload is rejected by the multer fileFilter, whose error is passed to next
and skips the route handler and its catch, so the Express default error
handler answers HTTP 500 with an error page; the 400 Invalid file format
response of the claim is never produced.  The rejection does happen before
any remote call. -/
theorem c5_wrong_type_evaluates_to_500 :
    processImageRoute sampleReg 77 gifReq sampleEnvOk =
      ⟨⟨500, .errorHtml "Error: Images Only!"⟩, [], none⟩ ∧
    (processImageRoute sampleReg 77 gifReq sampleEnvOk).response.status ≠ 400 := by
  decide

theorem assoc_updateHits_self (h : List (String × Nat)) (ip : String) (n : Nat) :
    assoc (updateHits h ip n) ip = some n := by
  induction h with
  | nil => simp [updateHits, assoc]
  | cons p t ih =>
    obtain ⟨k, v⟩ := p
    by_cases hk : k = ip
    · simp [updateHits, hk, assoc]
    · simp [updateHits, hk, assoc, ih]

theorem tryBlock_ok_status (reg : Registry) (p? : Option String) (req : Req)
    (env : ProviderEnv) (r : HttpResponse) (cs : List RemoteCall)
    (h : tryBlock reg p? req env = (.ok r, cs)) :
    r.status = 400 ∨ r.status = 200 := by
  simp only [tryBlock] at h
  split at h
  · cases h; exact Or.inl rfl
  · split at h
    · cases h; exact Or.inl rfl
    · split at h
      · cases h; exact Or.inl rfl
      · split at h
        · simp at h
        · split at h
          · simp at h
          · split at h
            · simp at h
            · cases h; exact Or.inr rfl

theorem handler_status_ne_429 (reg : Registry) (p? : Option String) (req : Req)
    (env : ProviderEnv) : (processImageHandler reg p? req env).1.status ≠ 429 := by
  unfold processImageHandler
  cases htb : tryBlock reg p? req env with
  | mk ex cs =>
    cases ex with
    | error e =>
      simp only []
      unfold catchResponse
      split
      · simp
      · split <;> simp
    | ok r =>
      simp only []
      rcases tryBlock_ok_status reg p? req env r cs htb with h | h <;> omega

theorem route_status_ne_429 (reg : Registry) (now : Nat) (req : Req)
    (env : ProviderEnv) : (processImageRoute reg now req env).response.status ≠ 429 := by
  unfold processImageRoute
  cases hm : multerSingleImage now req.file with
  | fail e => simp [expressDefaultErrorResponse]
  | pass p? =>
    simp only []
    rcases hpr : processImageHandler reg p? req env with ⟨r, cs⟩
    have hne := handler_status_ne_429 reg p? req env
    rw [hpr] at hne
    simpa using hne

theorem appHandle_endpoint_step (reg : Registry) (env : ProviderEnv)
    (ws t : Nat) (hits : List (String × Nat)) (req : Req)
    (ht : t < ws + limiterWindowMs) :
    appHandle reg ⟨ws, hits⟩ "/api/process-image" t req env =
      (if limiterMax < (assoc hits req.ip).getD 0 + 1 then
        ⟨⟨429, .text limiterMessage⟩, [], none,
         ⟨ws, updateHits hits req.ip ((assoc hits req.ip).getD 0 + 1)⟩⟩
      else
        ⟨(processImageRoute reg t req env).response,
         (processImageRoute reg t req env).calls,
         (processImageRoute reg t req env).storedFile,
         ⟨ws, updateHits hits req.ip ((assoc hits req.ip).getD 0 + 1)⟩⟩) := by
  have hm : mountMatches "/api/process-image" "/api/process-image" = true := by decide
  have hrf : rlRefresh ⟨ws, hits⟩ t = ⟨ws, hits⟩ := by
    have hcond : ¬((⟨ws, hits⟩ : RateLimitState).windowStart + limiterWindowMs ≤ t) := by
      change ¬(ws + limiterWindowMs ≤ t)
      omega
    simp only [rlRefresh]
    rw [if_neg hcond]
  simp only [appHandle, hm, if_true, rlObserve, hrf]

theorem passedCount_cons (a : AppResult) (as : List AppResult) :
    passedCount (a :: as) =
      (if a.response.status = 429 then 0 else 1) + passedCount as := by
  unfold passedCount
  by_cases h : a.response.status = 429
  · simp [List.filter, h]
  · simp [List.filter, h, Nat.add_comm]

theorem runApp_passed_general (reg : Registry) (env : ProviderEnv) (ws : Nat)
    (ip : String) :
    ∀ (reqs : List (Nat × Req)) (hits : List (String × Nat)),
    (∀ p ∈ reqs, p.1 < ws + limiterWindowMs ∧ p.2.ip = ip) →
    passedCount (runApp reg env ⟨ws, hits⟩ reqs)
      = min reqs.length (limiterMax - (assoc hits ip).getD 0) := by
  intro reqs
  induction reqs with
  | nil => intro hits _; simp [runApp, passedCount]
  | cons p rest ih =>
    intro hits hreq
    obtain ⟨t, r⟩ := p
    have hp := hreq (t, r) (by simp)
    have hrest : ∀ q ∈ rest, q.1 < ws + limiterWindowMs ∧ q.2.ip = ip := by
      intro q hq
      exact hreq q (by simp [hq])
    have hstep := appHandle_endpoint_step reg env ws t hits r hp.1
    rw [hp.2] at hstep
    simp only [runApp, hstep]
    have hnew := ih (updateHits hits ip ((assoc hits ip).getD 0 + 1)) hrest
    rw [assoc_updateHits_self] at hnew
    simp only [Option.getD_some] at hnew
    by_cases hlim : limiterMax < (assoc hits ip).getD 0 + 1
    · rw [if_pos hlim]
      simp [passedCount_cons, hnew]
      omega
    · rw [if_neg hlim]
      simp [passedCount_cons, hnew, route_status_ne_429 reg t r env]
      omega

/-- C8: the rate limiter is mounted only on the processing endpoint — a
request to any path outside it is answered without consulting or changing
the counter state; a same-address request inside the window beyond the
ceiling of ten is answered 429 with the configured throttling message
while no outbound call is issued and no file is stored; and of n
same-address requests inside one window exactly min n 10 pass the
limiter. -/
theorem c8_rate_limiter (reg : Registry) (env : ProviderEnv) :
    (∀ (st : RateLimitState) (path : String) (now : Nat) (req : Req),
      mountMatches "/api/process-image" path = false →
      appHandle reg st path now req env =
        ⟨⟨404, .text ("Cannot POST " ++ path)⟩, [], none, st⟩) ∧
    (∀ (ws : Nat) (hits : List (String × Nat)) (now : Nat) (req : Req),
      now < ws + limiterWindowMs →
      limiterMax ≤ (assoc hits req.ip).getD 0 →
      appHandle reg ⟨ws, hits⟩ "/api/process-image" now req env =
        ⟨⟨429, .text limiterMessage⟩, [], none,
         ⟨ws, updateHits hits req.ip ((assoc hits req.ip).getD 0 + 1)⟩⟩) ∧
    (∀ (ws : Nat) (ip : String) (reqs : List (Nat × Req)),
      (∀ p ∈ reqs, p.1 < ws + limiterWindowMs ∧ p.2.ip = ip) →
      passedCount (runApp reg env ⟨ws, []⟩ reqs) = min reqs.length limiterMax) := by
  refine ⟨?_, ?_, ?_⟩
  · intro st path now req h
    simp [appHandle, h]
  · intro ws hits now req ht hk
    rw [appHandle_endpoint_step reg env ws now hits req ht]
    rw [if_pos (by omega)]
  · intro ws ip reqs hreq
    have h := runApp_passed_general reg env ws ip reqs [] hreq
    simpa [assoc] using h

/-- Witness for C8: of eleven same-address requests inside one window
exactly ten pass; a request to a path off the endpoint leaves the counter
state unchanged; and an eleventh same-window request meets the 429
throttling reply with no calls and no stored file. -/
theorem c8_rate_limiter_witness :
    passedCount (runApp sampleReg sampleEnvOk ⟨0, []⟩
      ((List.range 11).map (fun i => (i, sampleReq)))) = 10 ∧
    appHandle sampleReg ⟨0, [("1.2.3.4", 3)]⟩ "/health" 5 sampleReq sampleEnvOk =
      ⟨⟨404, .text "Cannot POST /health"⟩, [], none, ⟨0, [("1.2.3.4", 3)]⟩⟩ ∧
    appHandle sampleReg ⟨0, [("1.2.3.4", 10)]⟩ "/api/process-image" 5 sampleReq sampleEnvOk =
      ⟨⟨429, .text limiterMessage⟩, [], none, ⟨0, [("1.2.3.4", 11)]⟩⟩ := by
  have h := c8_rate_limiter sampleReg sampleEnvOk
  refine ⟨?_, ?_, ?_⟩
  · have hc := h.2.2 0 "1.2.3.4" ((List.range 11).map (fun i => (i, sampleReq))) (by decide)
    rw [hc]
    decide
  · exact h.1 ⟨0, [("1.2.3.4", 3)]⟩ "/health" 5 sampleReq (by decide)
  · have hb := h.2.1 0 [("1.2.3.4", 10)] 5 sampleReq (by decide) (by decide)
    simpa [updateHits, assoc] using hb

end RHServer
